import Mathlib

/-!
Shallow embedding of the calculation engines of grow_cal_8.62.py
(yield prediction, energy accounting, extraction conversion, reverse
recommendation).  Real-valued quantities are modelled as exact rationals;
Python division that can raise ZeroDivisionError is modelled as an
Option-valued operation.
-/

namespace GrowCalc

/-- Python division: raises (none) on a zero denominator. -/
def pyDiv (a b : ℚ) : Option ℚ := if b = 0 then none else some (a / b)

/- Enumerated selectbox values of tab 1. -/

inductive LightTech
  | highEndLED | budgetLED | hpsCMH | blurple
deriving DecidableEq, Repr

inductive Medium
  | soil | cocoCoir | dwcHydro | aeroponics
deriving DecidableEq, Repr

inductive StrainType
  | photoperiod | autoflower | regular
deriving DecidableEq, Repr

inductive TrainMethod
  | topping | lst | scrog | mainlining
deriving DecidableEq, Repr

/-- Inputs of the yield simulator (tab 1), including the sidebar
calibration knobs GRAMS_PER_WATT_LED, MAX_G_PER_SQFT and grower_skill. -/
structure YieldInputs where
  length : ℚ
  width : ℚ
  true_watts : ℚ
  light_type : LightTech
  co2_supplement : Bool
  gramsPerWattLED : ℚ
  maxGPerSqft : ℚ
  system_type : Medium
  plant_count : ℕ
  pot_size : ℚ
  strain_type : StrainType
  training : List TrainMethod
  grower_skill : ℚ
deriving Repr

/-- Derived area, sq_ft = length * width. -/
def sq_ft (i : YieldInputs) : ℚ := i.length * i.width

/-- Light efficiency coefficient, the if/elif chain on light_type. -/
def light_eff (i : YieldInputs) : ℚ :=
  match i.light_type with
  | .highEndLED => 1.0
  | .budgetLED => 0.85
  | .hpsCMH => 0.70
  | .blurple => 0.50

/-- Medium efficiency, the if/elif chain on system_type. -/
def med_eff (i : YieldInputs) : ℚ :=
  match i.system_type with
  | .aeroponics => 1.25
  | .dwcHydro => 1.20
  | .cocoCoir => 1.10
  | .soil => 1.0

/-- Training multiplier: 1.0 + 0.08 per method, plus 0.05 if Scrog is used. -/
def train_mult (i : YieldInputs) : ℚ :=
  let base : ℚ := 1.0 + ((i.training.length : ℚ) * 0.08)
  if TrainMethod.scrog ∈ i.training then base + 0.05 else base

/-- CO2 multiplier on the light ceiling. -/
def co2_mult (i : YieldInputs) : ℚ := if i.co2_supplement then 1.25 else 1.0

/-- LIMIT A, the photosynthetic ceiling. -/
def limit_light_g (i : YieldInputs) : ℚ :=
  i.true_watts * i.gramsPerWattLED * light_eff i * co2_mult i

/-- LIMIT B, canopy saturation. -/
def limit_space_g (i : YieldInputs) : ℚ := sq_ft i * i.maxGPerSqft

/-- Per-strain biological ceiling: 400 for Autoflower, 800 otherwise. -/
def plant_ceiling (i : YieldInputs) : ℚ :=
  if i.strain_type = .autoflower then 400 else 800

/-- Root efficiency: 1.5 for DWC/Hydro and Aeroponics, 1.0 otherwise. -/
def root_eff (i : YieldInputs) : ℚ :=
  if i.system_type = .dwcHydro ∨ i.system_type = .aeroponics then 1.5 else 1.0

/-- Per-plant maximum: 30 + pot_size * 35 * root_eff, clamped at plant_ceiling. -/
def per_plant_max (i : YieldInputs) : ℚ :=
  let raw : ℚ := 30 + (i.pot_size * 35 * root_eff i)
  if raw > plant_ceiling i then plant_ceiling i else raw

/-- LIMIT C, biological capacity: per-plant max times plant count. -/
def limit_root_g (i : YieldInputs) : ℚ := per_plant_max i * (i.plant_count : ℚ)

/-- The bottleneck, minimum of the three ceilings. -/
def bottleneck (i : YieldInputs) : ℚ :=
  min (limit_light_g i) (min (limit_space_g i) (limit_root_g i))

/-- Hard physical cap, true_watts * 3.0. -/
def max_physics (i : YieldInputs) : ℚ := i.true_watts * 3.0

/-- Final predicted yield: bottleneck scaled by skill, training and medium,
then hard-capped at max_physics. -/
def predicted_yield_g (i : YieldInputs) : ℚ :=
  let p : ℚ := bottleneck i * i.grower_skill * train_mult i * med_eff i
  if p > max_physics i then max_physics i else p

/-- The three limiting factors named by the bottleneck analysis. -/
inductive Factor
  | light | space | root
deriving DecidableEq, Repr

/-- The bottleneck label, the if/elif/elif chain of the display code: first
equality match wins, light before space before root; none if no guard fires
(unreachable since the bottleneck is the minimum of the three). -/
def bottleneckLabel (i : YieldInputs) : Option Factor :=
  if bottleneck i = limit_light_g i then some .light
  else if bottleneck i = limit_space_g i then some .space
  else if bottleneck i = limit_root_g i then some .root
  else none

/-- The ceiling value named by a factor. -/
def factorValue (i : YieldInputs) : Factor → ℚ
  | .light => limit_light_g i
  | .space => limit_space_g i
  | .root => limit_root_g i

/-- The worked scenario of the spec: 4x4 tent, 600 W high-end LED, no CO2,
reference efficiency 2.2 g/W, reference density 65 g/sqft, soil, 4 plants in
5 gallon pots, photoperiod, no training, average skill. -/
def scenarioInput : YieldInputs :=
  { length := 4, width := 4, true_watts := 600, light_type := .highEndLED,
    co2_supplement := false, gramsPerWattLED := 2.2, maxGPerSqft := 65,
    system_type := .soil, plant_count := 4, pot_size := 5,
    strain_type := .photoperiod, training := [], grower_skill := 1.0 }

/-- C1: for every well-formed input (positive length, width, watts, pot size
and plant count), predicted_yield_g is at most the minimum of the three
ceilings scaled by grower skill, training multiplier and medium efficiency,
and at most true_watts times 3.0. -/
theorem yield_invariant (i : YieldInputs)
    (hl : 0 < i.length) (hw : 0 < i.width) (hwatts : 0 < i.true_watts)
    (hpot : 0 < i.pot_size) (hcount : 0 < i.plant_count) :
    predicted_yield_g i ≤
      min (limit_light_g i) (min (limit_space_g i) (limit_root_g i)) *
        i.grower_skill * train_mult i * med_eff i ∧
    predicted_yield_g i ≤ i.true_watts * 3.0 := by
  have hb : min (limit_light_g i) (min (limit_space_g i) (limit_root_g i))
      = bottleneck i := rfl
  rw [hb]
  simp only [predicted_yield_g, max_physics]
  split_ifs with h
  · exact ⟨by linarith, le_refl _⟩
  · exact ⟨le_refl _, by linarith⟩

/-- Witness for C1 at the concrete scenario input. -/
theorem yield_invariant_witness :
    predicted_yield_g scenarioInput ≤
      min (limit_light_g scenarioInput)
        (min (limit_space_g scenarioInput) (limit_root_g scenarioInput)) *
        scenarioInput.grower_skill * train_mult scenarioInput *
        med_eff scenarioInput ∧
    predicted_yield_g scenarioInput ≤ scenarioInput.true_watts * 3.0 :=
  yield_invariant scenarioInput (by norm_num [scenarioInput])
    (by norm_num [scenarioInput]) (by norm_num [scenarioInput])
    (by norm_num [scenarioInput]) (by norm_num [scenarioInput])

/-- C2: on the scenario input the engine computes limit_light_g = 1320,
limit_space_g = 1040, per-plant max 205, limit_root_g = 820, bottleneck 820
labelled root, and predicted_yield_g = 820 with the 1800 g hard cap not
applied. -/
theorem yield_scenario :
    limit_light_g scenarioInput = 1320 ∧
    limit_space_g scenarioInput = 1040 ∧
    per_plant_max scenarioInput = 205 ∧
    limit_root_g scenarioInput = 820 ∧
    bottleneck scenarioInput = 820 ∧
    bottleneckLabel scenarioInput = some .root ∧
    max_physics scenarioInput = 1800 ∧
    predicted_yield_g scenarioInput = 820 ∧
    predicted_yield_g scenarioInput < max_physics scenarioInput := by
  refine ⟨?_, ?_, ?_, ?_, ?_, ?_, ?_, ?_, ?_⟩ <;>
    (simp [limit_light_g, limit_space_g, per_plant_max, limit_root_g,
      bottleneck, bottleneckLabel, predicted_yield_g, max_physics,
      scenarioInput, light_eff, med_eff, train_mult, co2_mult, sq_ft,
      root_eff, plant_ceiling, min_def] <;> norm_num)

/-- C3: the bottleneck label always names a ceiling whose value equals the
minimum of the three ceilings, and ties follow the precedence light, then
space, then root. -/
theorem bottleneckLabel_correct (i : YieldInputs) :
    ∃ f, bottleneckLabel i = some f ∧
      factorValue i f =
        min (limit_light_g i) (min (limit_space_g i) (limit_root_g i)) ∧
      (f = .light ↔ bottleneck i = limit_light_g i) ∧
      (f = .space ↔ bottleneck i = limit_space_g i ∧
        bottleneck i ≠ limit_light_g i) ∧
      (f = .root ↔ bottleneck i ≠ limit_light_g i ∧
        bottleneck i ≠ limit_space_g i) := by
  have hone : bottleneck i = limit_light_g i ∨ bottleneck i = limit_space_g i
      ∨ bottleneck i = limit_root_g i := by
    unfold bottleneck
    rcases min_cases (limit_light_g i) (min (limit_space_g i) (limit_root_g i))
      with ⟨h1, _⟩ | ⟨h1, _⟩
    · exact Or.inl h1
    · rcases min_cases (limit_space_g i) (limit_root_g i) with ⟨h2, _⟩ | ⟨h2, _⟩
      · exact Or.inr (Or.inl (h1.trans h2))
      · exact Or.inr (Or.inr (h1.trans h2))
  have hb : min (limit_light_g i) (min (limit_space_g i) (limit_root_g i))
      = bottleneck i := rfl
  unfold bottleneckLabel
  split_ifs with h1 h2 h3
  · exact ⟨.light, rfl, by rw [hb]; exact h1.symm,
      iff_of_true rfl h1,
      iff_of_false (by simp) (fun hc => hc.2 h1),
      iff_of_false (by simp) (fun hc => hc.1 h1)⟩
  · exact ⟨.space, rfl, by rw [hb]; exact h2.symm,
      iff_of_false (by simp) h1,
      iff_of_true rfl ⟨h2, h1⟩,
      iff_of_false (by simp) (fun hc => hc.2 h2)⟩
  · exact ⟨.root, rfl, by rw [hb]; exact h3.symm,
      iff_of_false (by simp) h1,
      iff_of_false (by simp) (fun hc => h2 hc.1),
      iff_of_true rfl ⟨h1, h2⟩⟩
  · rcases hone with h | h | h
    · exact absurd h h1
    · exact absurd h h2
    · exact absurd h h3

/- Tab 2: the electricity cost calculator. -/

/-- Matching of a pattern against the beginning of a character list. -/
def leadMatch : List Char → List Char → Bool
  | [], _ => true
  | _ :: _, [] => false
  | a :: as, b :: bs => a = b && leadMatch as bs

/-- Substring containment on character lists, the Python operator
needle in haystack on strings. -/
def hasSub (needle : List Char) : List Char → Bool
  | [] => leadMatch needle []
  | c :: rest => leadMatch needle (c :: rest) || hasSub needle rest

/-- One row of the device table. -/
structure Device where
  name : String
  watts : ℚ
  veg_duty : ℚ
  flower_duty : ℚ
  dry_duty : ℚ
deriving Repr

/-- The special-case test of the loop body: the string Light occurs in the
device name (case sensitive). -/
def isLightDevice (d : Device) : Bool :=
  hasSub "Light".toList d.name.toList

/-- Veg-phase energy of one device: 18 h/day for a light, 24 h/day else. -/
def kwh_veg (d : Device) (days_veg : ℚ) : ℚ :=
  if isLightDevice d then d.watts * 18 * d.veg_duty * days_veg / 1000
  else d.watts * 24 * d.veg_duty * days_veg / 1000

/-- Flower-phase energy of one device: 12 h/day for a light, 24 h/day else. -/
def kwh_flow (d : Device) (days_flower : ℚ) : ℚ :=
  if isLightDevice d then d.watts * 12 * d.flower_duty * days_flower / 1000
  else d.watts * 24 * d.flower_duty * days_flower / 1000

/-- Dry-phase energy of one device: 0 for a light (lights off), 24 h/day else. -/
def kwh_dry (d : Device) (days_dry : ℚ) : ℚ :=
  if isLightDevice d then 0
  else d.watts * 24 * d.dry_duty * days_dry / 1000

/-- Accumulated total kWh over the device list. -/
def total_kwh (devices : List Device) (dv df dd : ℚ) : ℚ :=
  (devices.map (fun d => kwh_veg d dv + kwh_flow d df + kwh_dry d dd)).sum

/-- Total cycle cost, total kWh times the electricity price. -/
def total_cost (devices : List Device) (dv df dd kwhCost : ℚ) : ℚ :=
  total_kwh devices dv df dd * kwhCost

/-- The three phases of the cycle. -/
inductive Phase
  | veg | flower | dry
deriving DecidableEq, Repr

/-- Modelled from the spec wording: active hours per day for a phase,
depending on whether the device is classified as a light (18/12/0 for a
light, 24 in every phase otherwise). -/
def specActiveHours (isLight : Bool) : Phase → ℚ
  | .veg => if isLight then 18 else 24
  | .flower => if isLight then 12 else 24
  | .dry => if isLight then 0 else 24

/-- Duty cycle of a device for a phase. -/
def phaseDuty (d : Device) : Phase → ℚ
  | .veg => d.veg_duty
  | .flower => d.flower_duty
  | .dry => d.dry_duty

/-- The scenario device of the spec: the default main grow light at 600 W,
full duty in veg and flower, off during dry. -/
def mainLightDevice : Device :=
  { name := "Main Grow Light", watts := 600, veg_duty := 1.0,
    flower_duty := 1.0, dry_duty := 0.0 }

/-- A device whose name holds light only in lowercase, so the case-sensitive
substring test does not fire. -/
def lowercaseDevice : Device :=
  { name := "main light", watts := 100, veg_duty := 1.0,
    flower_duty := 1.0, dry_duty := 0.5 }

/-- Per-phase energy of one device, indexed by phase. -/
def kwhOfPhase (d : Device) : Phase → ℚ → ℚ
  | .veg, days => kwh_veg d days
  | .flower, days => kwh_flow d days
  | .dry, days => kwh_dry d days

/-- C4: for every device and phase, energy equals watts times active hours
times duty cycle times phase days over 1000, with a light at 18/12/0 hours
per day over veg/flower/dry and every other device at 24; the single-light
scenario gives 378 veg kWh, 453.6 flower kWh and total cost 116.424. -/
theorem energy_per_phase_formula :
    (∀ (d : Device) (ph : Phase) (days : ℚ),
      kwhOfPhase d ph days =
        d.watts * specActiveHours (isLightDevice d) ph * phaseDuty d ph *
          days / 1000) ∧
    kwh_veg mainLightDevice 35 = 378 ∧
    kwh_flow mainLightDevice 63 = 453.6 ∧
    kwh_dry mainLightDevice 14 = 0 ∧
    total_cost [mainLightDevice] 35 63 14 0.14 = 116.424 := by
  have hlight : isLightDevice mainLightDevice = true := by decide
  constructor
  · intro d ph days
    cases ph <;> cases h : isLightDevice d <;>
      simp [kwhOfPhase, kwh_veg, kwh_flow, kwh_dry, specActiveHours,
        phaseDuty, h] <;> ring
  · refine ⟨?_, ?_, ?_, ?_⟩ <;>
      (simp [kwh_veg, kwh_flow, kwh_dry, total_cost, total_kwh, hlight] <;>
        norm_num [mainLightDevice])

/-- C10: a device counts as a light exactly when its name holds the
case-sensitive substring Light; a device without it, such as one named main
light in lowercase, is billed 24 hours/day in all three phases, with a
non-zero dry-phase contribution when its dry duty cycle is positive. -/
theorem light_classification :
    (∀ (d : Device) (dv df dd : ℚ), isLightDevice d = false →
      kwh_veg d dv = d.watts * 24 * d.veg_duty * dv / 1000 ∧
      kwh_flow d df = d.watts * 24 * d.flower_duty * df / 1000 ∧
      kwh_dry d dd = d.watts * 24 * d.dry_duty * dd / 1000) ∧
    isLightDevice mainLightDevice = true ∧
    isLightDevice lowercaseDevice = false ∧
    kwh_dry lowercaseDevice 14 = 100 * 24 * 0.5 * 14 / 1000 ∧
    0 < kwh_dry lowercaseDevice 14 := by
  have hlow : isLightDevice lowercaseDevice = false := by decide
  refine ⟨?_, by decide, hlow, ?_, ?_⟩
  · intro d dv df dd h
    refine ⟨?_, ?_, ?_⟩ <;> simp [kwh_veg, kwh_flow, kwh_dry, h]
  · simp [kwh_dry, hlow] <;> norm_num [lowercaseDevice]
  · simp [kwh_dry, hlow] <;> norm_num [lowercaseDevice]

/-- Witness for C10 at the concrete lowercase-named device. -/
theorem light_classification_witness :
    kwh_veg lowercaseDevice 35 =
      lowercaseDevice.watts * 24 * lowercaseDevice.veg_duty * 35 / 1000 ∧
    kwh_flow lowercaseDevice 63 =
      lowercaseDevice.watts * 24 * lowercaseDevice.flower_duty * 63 / 1000 ∧
    kwh_dry lowercaseDevice 14 =
      lowercaseDevice.watts * 24 * lowercaseDevice.dry_duty * 14 / 1000 :=
  light_classification.1 lowercaseDevice 35 63 14 (by decide)

/- Derived ratio metrics: the guarded cost-per-gram of tab 2 and the
unguarded GPW and canopy-density divisions of the tab 1 metric cards. -/

/-- Cost per gram: total_cost / predicted_yield_g if predicted_yield_g > 0
else 0.  The division only runs under the positivity guard. -/
def cost_per_gram (totalCost predictedYield : ℚ) : Option ℚ :=
  if predictedYield > 0 then pyDiv totalCost predictedYield else some 0

/-- Efficiency metric, predicted_yield_g / true_watts, displayed with no
guard. -/
def gpw (predictedYield trueWatts : ℚ) : Option ℚ :=
  pyDiv predictedYield trueWatts

/-- Canopy density metric, predicted_yield_g / sq_ft, displayed with no
guard. -/
def g_per_sqft (predictedYield sqft : ℚ) : Option ℚ :=
  pyDiv predictedYield sqft

/-- C5 counterexample: the GPW and canopy-density ratios raise on a zero
denominator instead of yielding a sentinel, so not every ratio computation
is guarded. -/
theorem division_guard_counterexample :
    gpw 820 0 = none ∧ g_per_sqft 820 0 = none := by
  constructor <;> simp [gpw, g_per_sqft, pyDiv]

/-- C5 amended: cost-per-gram is total and guarded, equal to
totalCost / predictedGrams when predictedGrams > 0 and 0 otherwise; the GPW
and grams-per-sqft ratios are defined only on a non-zero denominator. -/
theorem division_guard_amended :
    (∀ c p : ℚ, ∃ v, cost_per_gram c p = some v ∧
      (0 < p → v = c / p) ∧ (¬ 0 < p → v = 0)) ∧
    (∀ g w : ℚ, w ≠ 0 → ∃ v, gpw g w = some v) ∧
    (∀ g s : ℚ, s ≠ 0 → ∃ v, g_per_sqft g s = some v) := by
  refine ⟨?_, ?_, ?_⟩
  · intro c p
    by_cases hp : 0 < p
    · refine ⟨c / p, ?_, fun _ => rfl, fun h => absurd hp h⟩
      simp [cost_per_gram, pyDiv, hp, ne_of_gt hp]
    · exact ⟨0, by simp [cost_per_gram, hp], fun h => absurd h hp,
        fun _ => rfl⟩
  · intro g w hw
    exact ⟨g / w, by simp [gpw, pyDiv, hw]⟩
  · intro g s hs
    exact ⟨g / s, by simp [g_per_sqft, pyDiv, hs]⟩

/-- Witness for the amended C5 at concrete inputs. -/
theorem division_guard_amended_witness :
    (∃ v, cost_per_gram 116.424 820 = some v ∧
      ((0:ℚ) < 820 → v = 116.424 / 820) ∧ (¬ (0:ℚ) < 820 → v = 0)) ∧
    (∃ v, gpw 820 600 = some v) ∧ (∃ v, g_per_sqft 820 16 = some v) :=
  ⟨division_guard_amended.1 116.424 820,
    division_guard_amended.2.1 820 600 (by norm_num),
    division_guard_amended.2.2 820 16 (by norm_num)⟩

/- Tab 3: the solventless extraction engine. -/

/-- Dry-cured path: rosin mass = input mass times press return percent. -/
def rosin_g_dry (input_g return_rate : ℚ) : ℚ :=
  input_g * (return_rate / 100)

/-- Fresh-frozen first stage: bubble hash mass = input mass times wash
yield percent. -/
def hash_g (input_g wash_yield : ℚ) : ℚ :=
  input_g * (wash_yield / 100)

/-- Fresh-frozen second stage: rosin mass = hash mass times press yield
percent. -/
def rosin_g_ff (input_g wash_yield press_yield : ℚ) : ℚ :=
  hash_g input_g wash_yield * (press_yield / 100)

/-- C6: for a non-negative input mass and percentages in [0, 100], the
dry-cured rosin mass is at most the input mass, and on the fresh-frozen
path rosin mass is at most hash mass, which is at most the input mass. -/
theorem extraction_mass_bounds (m r w p : ℚ) (hm : 0 ≤ m)
    (hr0 : 0 ≤ r) (hr1 : r ≤ 100) (hw0 : 0 ≤ w) (hw1 : w ≤ 100)
    (hp0 : 0 ≤ p) (hp1 : p ≤ 100) :
    rosin_g_dry m r ≤ m ∧
    rosin_g_ff m w p ≤ hash_g m w ∧ hash_g m w ≤ m := by
  have hhash : 0 ≤ hash_g m w := by
    unfold hash_g
    positivity
  refine ⟨?_, ?_, ?_⟩
  · unfold rosin_g_dry
    nlinarith [mul_nonneg hm (by linarith : (0:ℚ) ≤ 100 - r)]
  · unfold rosin_g_ff
    nlinarith [mul_nonneg hhash (by linarith : (0:ℚ) ≤ 100 - p)]
  · unfold hash_g
    nlinarith [mul_nonneg hm (by linarith : (0:ℚ) ≤ 100 - w)]

/-- Witness for C6 at the slider defaults 20 / 4 / 75 on an 820 g input. -/
theorem extraction_mass_bounds_witness :
    rosin_g_dry 820 20 ≤ 820 ∧
    rosin_g_ff 820 4 75 ≤ hash_g 820 4 ∧ hash_g 820 4 ≤ 820 :=
  extraction_mass_bounds 820 20 4 75 (by norm_num) (by norm_num)
    (by norm_num) (by norm_num) (by norm_num) (by norm_num) (by norm_num)

/- Tab 4: the setup recommender. -/

/-- The selectable target units. -/
inductive MassUnit
  | ounces | pounds | kilograms
deriving DecidableEq, Repr

/-- Unit normalization to grams: Ounces times 28.35, Pounds times 453.59,
Kilograms times 1000. -/
def target_g (v : ℚ) : MassUnit → ℚ
  | .ounces => v * 28.35
  | .pounds => v * 453.59
  | .kilograms => v * 1000

/-- Required wattage at the fixed 1.5 g/W average-efficiency assumption. -/
def req_watts (g : ℚ) : ℚ := g / 1.5

/-- Required area at the fixed 40 g/sqft average-density assumption. -/
def req_sqft (g : ℚ) : ℚ := g / 40.0

/-- Tent suggestion, the if/elif chain on req_sqft. -/
def tent_rec (s : ℚ) : String :=
  if s < 5 then "2x2.5 or 2x4 Tent"
  else if s < 10 then "3x3 or 2x4 Tent"
  else if s < 17 then "4x4 Tent"
  else if s < 26 then "5x5 Tent"
  else "Multiple Tents or Dedicated Room"

/-- Light suggestion, the same chain. -/
def light_rec (s : ℚ) : String :=
  if s < 5 then "200W-300W LED"
  else if s < 10 then "300W-480W LED"
  else if s < 17 then "600W-720W Bar LED"
  else if s < 26 then "800W-1000W Bar LED + CO2"
  else "Multi-light Setup"

/-- Modelled from the spec wording: the tent tier by membership of the
required area in the five half-open bands. -/
def specTentTier (s : ℚ) : String :=
  if 0 ≤ s ∧ s < 5 then "2x2.5 or 2x4 Tent"
  else if 5 ≤ s ∧ s < 10 then "3x3 or 2x4 Tent"
  else if 10 ≤ s ∧ s < 17 then "4x4 Tent"
  else if 17 ≤ s ∧ s < 26 then "5x5 Tent"
  else "Multiple Tents or Dedicated Room"

/-- Modelled from the spec wording: the light tier by band membership. -/
def specLightTier (s : ℚ) : String :=
  if 0 ≤ s ∧ s < 5 then "200W-300W LED"
  else if 5 ≤ s ∧ s < 10 then "300W-480W LED"
  else if 10 ≤ s ∧ s < 17 then "600W-720W Bar LED"
  else if 17 ≤ s ∧ s < 26 then "800W-1000W Bar LED + CO2"
  else "Multi-light Setup"

/-- C7: the recommender normalizes units to grams, divides by 1.5 and 40
for required watts and area, and selects tiers by the five half-open bands;
a 1 Pound target gives 453.59 g, required watts rounding to 302.39,
required sqft rounding to 11.34, inside the [10, 17) band with the 4x4
tent and 600W-720W bar LED labels. -/
theorem recommender_tiers :
    (∀ s : ℚ, 0 ≤ s →
      tent_rec s = specTentTier s ∧ light_rec s = specLightTier s) ∧
    target_g 1 .pounds = 453.59 ∧
    round (req_watts (target_g 1 .pounds) * 100) = 30239 ∧
    round (req_sqft (target_g 1 .pounds) * 100) = 1134 ∧
    (10 ≤ req_sqft (target_g 1 .pounds) ∧
      req_sqft (target_g 1 .pounds) < 17) ∧
    tent_rec (req_sqft (target_g 1 .pounds)) = "4x4 Tent" ∧
    light_rec (req_sqft (target_g 1 .pounds)) = "600W-720W Bar LED" := by
  refine ⟨?_, ?_, ?_, ?_, ?_, ?_, ?_⟩
  · intro s hs
    rcases lt_or_le s 5 with h1 | h1
    · constructor <;>
        simp [tent_rec, light_rec, specTentTier, specLightTier, h1, hs]
    rcases lt_or_le s 10 with h2 | h2
    · have hn1 : ¬ s < 5 := not_lt.2 h1
      constructor <;>
        simp [tent_rec, light_rec, specTentTier, specLightTier,
          h1, h2, hn1, hs]
    rcases lt_or_le s 17 with h3 | h3
    · have hn1 : ¬ s < 5 := not_lt.2 h1
      have hn2 : ¬ s < 10 := not_lt.2 h2
      constructor <;>
        simp [tent_rec, light_rec, specTentTier, specLightTier,
          h2, h3, hn1, hn2, hs]
    rcases lt_or_le s 26 with h4 | h4
    · have hn1 : ¬ s < 5 := not_lt.2 h1
      have hn2 : ¬ s < 10 := not_lt.2 h2
      have hn3 : ¬ s < 17 := not_lt.2 h3
      constructor <;>
        simp [tent_rec, light_rec, specTentTier, specLightTier,
          h3, h4, hn1, hn2, hn3, hs]
    · have hn1 : ¬ s < 5 := not_lt.2 h1
      have hn2 : ¬ s < 10 := not_lt.2 h2
      have hn3 : ¬ s < 17 := not_lt.2 h3
      have hn4 : ¬ s < 26 := not_lt.2 h4
      constructor <;>
        simp [tent_rec, light_rec, specTentTier, specLightTier,
          h4, hn1, hn2, hn3, hn4, hs]
  · norm_num [target_g]
  · norm_num [target_g, req_watts, round_eq]
  · norm_num [target_g, req_sqft, round_eq]
  · constructor <;> norm_num [target_g, req_sqft]
  · norm_num [target_g, req_sqft, tent_rec]
  · norm_num [target_g, req_sqft, light_rec]

/-- Witness for C7 at a concrete in-band area. -/
theorem recommender_tiers_witness :
    tent_rec 3 = specTentTier 3 ∧ light_rec 3 = specLightTier 3 :=
  recommender_tiers.1 3 (by norm_num)

/- The plant-count estimate of tab 4 and the module import list. -/

/-- Module-level names bound by the import statements of the script:
streamlit as st, pandas as pd, numpy as np, and date and timedelta from
datetime.  The module math is never imported. -/
def importedNames : List String := ["st", "pd", "np", "date", "timedelta"]

/-- Python resolution of a module-level global name used by the script. -/
def nameDefined (n : String) : Bool := importedNames.contains n

/-- The plant-count estimate: math.ceil(target_g / 112).  Evaluating the
name math raises NameError (none) because math is not imported. -/
def est_pots (g : ℚ) : Option ℤ :=
  if nameDefined "math" then some ⌈g / 112⌉ else none

/-- C8: the plant-count line evaluates math.ceil with the module math never
imported, so the computation raises NameError for every target instead of
returning the intended ceiling; the intended value at 1 Pound would be 5. -/
theorem est_pots_raises :
    est_pots (target_g 1 .pounds) = none ∧
    ⌈target_g 1 .pounds / 112⌉ = 5 := by
  constructor
  · simp [est_pots, nameDefined, importedNames]
  · norm_num [target_g, Int.ceil_eq_iff]

/- Input validation behavior of the yield engine. -/

/-- The scenario input degraded to zero watts and zero area. -/
def degenerateInput : YieldInputs :=
  { scenarioInput with length := 0, width := 0, true_watts := 0 }

/-- C9 counterexample: on zero watts and zero area the yield engine
silently returns the value 0 instead of rejecting with a domain error. -/
theorem no_validation_counterexample :
    predicted_yield_g degenerateInput = 0 ∧
    limit_light_g degenerateInput = 0 ∧
    limit_space_g degenerateInput = 0 := by
  refine ⟨?_, ?_, ?_⟩ <;>
    (simp [predicted_yield_g, bottleneck, limit_light_g, limit_space_g,
      limit_root_g, per_plant_max, plant_ceiling, root_eff, max_physics,
      sq_ft, light_eff, co2_mult, train_mult, med_eff, degenerateInput,
      scenarioInput, min_def] <;> norm_num)

/-- C9 amended: the engine performs no validation; with zero watts (and
non-negative remaining dimensions) it silently produces the output 0
instead of failing with a domain error. -/
theorem no_validation_amended (i : YieldInputs)
    (hw : i.true_watts = 0) (hl : 0 ≤ i.length) (hwid : 0 ≤ i.width)
    (hd : 0 ≤ i.maxGPerSqft) (hp : 0 ≤ i.pot_size) :
    predicted_yield_g i = 0 := by
  have hlight : limit_light_g i = 0 := by simp [limit_light_g, hw]
  have hspace : 0 ≤ limit_space_g i :=
    mul_nonneg (mul_nonneg hl hwid) hd
  have hroot : 0 ≤ limit_root_g i := by
    have hre : 0 < root_eff i := by
      unfold root_eff
      split_ifs <;> norm_num
    have hraw : 0 ≤ 30 + i.pot_size * 35 * root_eff i := by
      have hmul := mul_nonneg (mul_nonneg hp (by norm_num : (0:ℚ) ≤ 35))
        hre.le
      linarith
    have hceil : 0 ≤ plant_ceiling i := by
      unfold plant_ceiling
      split_ifs <;> norm_num
    have hpp : 0 ≤ per_plant_max i := by
      simp only [per_plant_max]
      split_ifs
      · exact hceil
      · exact hraw
    exact mul_nonneg hpp (Nat.cast_nonneg _)
  have hbot : bottleneck i = 0 := by
    unfold bottleneck
    rw [hlight, min_eq_left (le_min hspace hroot)]
  simp [predicted_yield_g, hbot, max_physics, hw]

/-- Witness for the amended C9 at the degenerate input. -/
theorem no_validation_amended_witness :
    predicted_yield_g degenerateInput = 0 :=
  no_validation_amended degenerateInput
    (by norm_num [degenerateInput, scenarioInput])
    (by norm_num [degenerateInput, scenarioInput])
    (by norm_num [degenerateInput, scenarioInput])
    (by norm_num [degenerateInput, scenarioInput])
    (by norm_num [degenerateInput, scenarioInput])

end GrowCalc
